import Mathlib

/-
  Verification of the GraphX graph-accelerator VM (C sources under src/)
  against its natural-language specification.

  Shallow embedding conventions:
  * C fixed-width integers are modelled as Nat / Int with explicit wrapping
    (% 2^32) where the C code performs modular (unsigned) or, for signed
    overflow, two's-complement arithmetic.
  * C arrays are modelled as total functions Nat -> _; accesses that are
    out of bounds in C (undefined behaviour) read the function at that
    index; theorems below only exercise in-bounds accesses.
  * IEEE-754 single-precision operations are host-defined and out of scope
    of the claims; they are abstracted as a FloatOps parameter acting on raw
    32-bit patterns.  Every theorem below is independent of the chosen
    FloatOps; concrete evaluations use the dummy instance fm0 on paths that
    never consult it.
  * The host hooks debug_hook / exit_hook are modelled as registration
    booleans; the pipeline records how often each would have been invoked.
-/

namespace GraphX

/-- Interpret the low 32 bits of a nonnegative integer as a signed int32
(the C conversion from uint32_t / uint64_t to int32_t). -/
def zOfU32 (x : Nat) : ℤ :=
  if x % 2^32 < 2^31 then (x % 2^32 : ℤ) else (x % 2^32 : ℤ) - 2^32

/-- Convert a signed value to its 32-bit pattern (the C conversion from
int32_t to unsigned). -/
def u32ofZ (z : ℤ) : Nat := (z % 2^32).toNat

/-- Two's-complement wrap of an integer into the int32 range, modelling the
result of C int32_t arithmetic. -/
def wrap32 (z : ℤ) : ℤ := (z + 2^31) % 2^32 - 2^31

/-- Modular uint32 addition. -/
def u32add (x y : Nat) : Nat := (x + y) % 2^32

/-- Modular uint32 subtraction. -/
def u32sub (x y : Nat) : Nat := (2^32 + x % 2^32 - y % 2^32) % 2^32

/-- Modular uint32 multiplication. -/
def u32mul (x y : Nat) : Nat := (x * y) % 2^32

/-- The uint32 division (division by zero is undefined behaviour in C; the
model returns 0 there, and no theorem exercises that case). -/
def u32div (x y : Nat) : Nat := (x % 2^32) / (y % 2^32)

/- ===================== datastructures.h / datastructures.c ============= -/

def MAX_QUEUE_SIZE : Nat := 1024
def QUEUE_MASK : Nat := 1023

/-- Ring-buffer FIFO (struct queue_t).  data holds uint32 node ids; front
and back are monotonically increasing uint64 cursors (pushes go to front,
pops come from back, exactly as in datastructures.c). -/
structure queue_t where
  data : Nat → Nat
  front : Nat
  back : Nat

/-- The queue_init function: zero the buffer and both cursors. -/
def queue_init (_q : queue_t) : queue_t :=
  { data := fun _ => 0, front := 0, back := 0 }

/-- The queue_push function: fails (-1) when front - back == MAX_QUEUE_SIZE,
otherwise stores at front & QUEUE_MASK and increments front. -/
def queue_push (q : queue_t) (node : Nat) : Int × queue_t :=
  if q.front - q.back = MAX_QUEUE_SIZE then (-1, q)
  else (0, { q with data := fun i => if i = q.front % MAX_QUEUE_SIZE then node else q.data i,
                    front := q.front + 1 })

/-- The queue_pop function: fails when front == back (result pointer left
unwritten, modelled as none), otherwise yields data[back & QUEUE_MASK] and
increments back. -/
def queue_pop (q : queue_t) : Option Nat × queue_t :=
  if q.front = q.back then (none, q)
  else (some (q.data (q.back % MAX_QUEUE_SIZE)), { q with back := q.back + 1 })

/-- The queue_empty function. -/
def queue_empty (q : queue_t) : Bool := q.front = q.back

inductive frontier_type_t where
  | FRONTIER_QUEUE
  | FRONTIER_PRIORITY_QUEUE
  | FRONTIER_BUCKET_QUEUE
  | FRONTIER_SET
  deriving DecidableEq

export frontier_type_t (FRONTIER_QUEUE FRONTIER_PRIORITY_QUEUE FRONTIER_BUCKET_QUEUE FRONTIER_SET)

/-- The frontier_t structure: a backend-type tag plus the queue backend
(the only member of the backend union). -/
structure frontier_t where
  type : frontier_type_t
  queue : queue_t

/-- The frontier_init function: sets the type, then initialises the queue
backend when the type is FRONTIER_QUEUE, else fails with -1. -/
def frontier_init (f : frontier_t) (backend_type : frontier_type_t) : Int × frontier_t :=
  match backend_type with
  | FRONTIER_QUEUE => (0, { type := backend_type, queue := queue_init f.queue })
  | _ => (-1, { f with type := backend_type })

/-- The frontier_push function. -/
def frontier_push (f : frontier_t) (node : Nat) : Int × frontier_t :=
  match f.type with
  | FRONTIER_QUEUE =>
    let r := queue_push f.queue node
    (r.1, { f with queue := r.2 })
  | _ => (-1, f)

/-- The frontier_pop function: none models the C -1 status with the output
node left unwritten. -/
def frontier_pop (f : frontier_t) : Option Nat × frontier_t :=
  match f.type with
  | FRONTIER_QUEUE =>
    let r := queue_pop f.queue
    (r.1, { f with queue := r.2 })
  | _ => (none, f)

/-- The frontier_empty function: 1 empty, 0 non-empty, -1 unsupported
backend. -/
def frontier_empty (f : frontier_t) : Int :=
  match f.type with
  | FRONTIER_QUEUE => if queue_empty f.queue then 1 else 0
  | _ => -1

/- ===================== graph.h / graph.c =============================== -/

/-- CSR graph (graph_t).  row_index, col_index hold unsigned int words;
values holds the raw 32-bit patterns of the float weights. -/
structure graph_t where
  m : Nat
  n : Nat
  col_index : Nat → Nat
  row_index : Nat → Nat
  values : Nat → Nat

/-- The graph_degree function: unsigned subtraction
row_index[u+1] - row_index[u] (wrapping like C unsigned int). -/
def graph_degree (g : graph_t) (node : Nat) : Nat :=
  (2^32 + g.row_index (node + 1) % 2^32 - g.row_index node % 2^32) % 2^32

/-- The while loop of graph_has_edge: binary search for v over
col_index[l..h] with C int cursors.  C computes m = (l + h) / 2 on
nonnegative cursors, where truncating and flooring division agree with
Lean Int division. -/
def hasEdgeLoop (col : Nat → Nat) (v : Nat) (l h : ℤ) : Bool :=
  if hlh : l ≤ h then
    let m : ℤ := (l + h) / 2
    if col m.toNat = v then true
    else if col m.toNat < v then hasEdgeLoop col v (m + 1) h
    else hasEdgeLoop col v l (m - 1)
  else false
termination_by (h + 1 - l).toNat
decreasing_by
  · omega
  · omega

/-- The graph_has_edge function: binary search over the row slice of u.
C initialises int h = end - 1 where end is unsigned; for end = 0 the
unsigned wraparound re-interpreted as int gives -1, matching the Int
subtraction here. -/
def graph_has_edge (g : graph_t) (u v : Nat) : Bool :=
  hasEdgeLoop g.col_index v (g.row_index u : ℤ) ((g.row_index (u + 1) : ℤ) - 1)

/-- Boolean check that the entries of col at positions [lo, hi) are sorted
ascending (adjacent comparisons); this is the load-time invariant of the
spec on per-row neighbour slices. -/
def sortedRange (col : Nat → Nat) (lo hi : Nat) : Bool :=
  decide (∀ k ∈ List.range' lo (hi - lo), k + 1 < hi → col k ≤ col (k + 1))

theorem sortedRange_mono (col : Nat → Nat) (lo hi : Nat)
    (hs : sortedRange col lo hi = true) :
    ∀ i j : Nat, lo ≤ i → i ≤ j → (j < hi → col i ≤ col j) := by
  have hstep : ∀ k, lo ≤ k → k + 1 < hi → col k ≤ col (k + 1) := by
    intro k hk1 hk2
    have hall := of_decide_eq_true hs
    exact hall k (by rw [List.mem_range']; exact ⟨k - lo, by omega, by omega⟩) hk2
  intro i j hi hij
  induction j, hij using Nat.le_induction with
  | base => intro _; exact le_refl _
  | succ n hn ih =>
    intro hj
    exact le_trans (ih (by omega)) (hstep n (by omega) hj)

theorem hasEdgeLoop_iff (col : Nat → Nat) (v : Nat) :
    ∀ l h : ℤ, 0 ≤ l →
    (∀ i j : ℤ, l ≤ i → i ≤ j → j ≤ h → col i.toNat ≤ col j.toNat) →
    (hasEdgeLoop col v l h = true ↔ ∃ i : ℤ, l ≤ i ∧ i ≤ h ∧ col i.toNat = v) := by
  intro l h
  induction l, h using hasEdgeLoop.induct col v
  case _ l h hlh m heq =>
    intro hl _
    rw [hasEdgeLoop]
    simp only [dif_pos hlh, if_pos heq]
    have hm1 : l ≤ m := by omega
    have hm2 : m ≤ h := by omega
    exact iff_of_true trivial ⟨m, hm1, hm2, heq⟩
  case _ l h hlh m hne hlt ih =>
    intro hl hsort
    rw [hasEdgeLoop]
    simp only [dif_pos hlh, if_neg hne, if_pos hlt]
    have hm1 : l ≤ m := by omega
    have hm2 : m ≤ h := by omega
    rw [ih (by omega) (fun i j hi hij hj => hsort i j (by omega) hij hj)]
    constructor
    · rintro ⟨i, h1, h2, h3⟩
      exact ⟨i, by omega, h2, h3⟩
    · rintro ⟨i, h1, h2, h3⟩
      refine ⟨i, ?_, h2, h3⟩
      by_contra hcon
      have hile : i ≤ m := by omega
      have := hsort i m h1 hile hm2
      omega
  case _ l h hlh m hne hge ih =>
    intro hl hsort
    rw [hasEdgeLoop]
    simp only [dif_pos hlh, if_neg hne, if_neg hge]
    have hm1 : l ≤ m := by omega
    have hm2 : m ≤ h := by omega
    rw [ih hl (fun i j hi hij hj => hsort i j hi hij (by omega))]
    constructor
    · rintro ⟨i, h1, h2, h3⟩
      exact ⟨i, h1, by omega, h3⟩
    · rintro ⟨i, h1, h2, h3⟩
      refine ⟨i, h1, ?_, h3⟩
      by_contra hcon
      have hmle : m ≤ i := by omega
      have := hsort m i hm1 hmle h2
      omega
  case _ l h hlh =>
    intro _ _
    rw [hasEdgeLoop]
    simp only [dif_neg hlh, Bool.false_eq_true, false_iff]
    rintro ⟨i, h1, h2, _⟩
    omega

theorem graph_has_edge_iff (g : graph_t) (u v : Nat)
    (hs : sortedRange g.col_index (g.row_index u) (g.row_index (u + 1)) = true) :
    (graph_has_edge g u v = true ↔
      ∃ k : Nat, g.row_index u ≤ k ∧ k < g.row_index (u + 1) ∧ g.col_index k = v) := by
  unfold graph_has_edge
  rw [hasEdgeLoop_iff g.col_index v _ _ (by positivity)]
  · constructor
    · rintro ⟨i, h1, h2, h3⟩
      exact ⟨i.toNat, by omega, by omega, h3⟩
    · rintro ⟨k, h1, h2, h3⟩
      exact ⟨(k : ℤ), by omega, by omega, by simpa using h3⟩
  · intro i j hi hij hj
    exact sortedRange_mono g.col_index _ _ hs i.toNat j.toNat (by omega) (by omega) (by omega)

/- ===================== graphX.h ======================================== -/

def PROGRAM_SIZE : Nat := 8192
def MEMORY_SIZE : Nat := 65536
def LANE_SIZE : Nat := 4

def FLAG_I : Nat := 0x1
def FLAG_F : Nat := 0x2

def FLAG_ZERO : Nat := 0x1
def FLAG_NEG : Nat := 0x2
def FLAG_POS : Nat := 0x4

/- The instruction enum of graphX.h assigns consecutive values starting at
HALT = 0; the names below carry the same values. -/
def HALT : Nat := 0
def BZ : Nat := 1
def BNZ : Nat := 2
def BLT : Nat := 3
def BGE : Nat := 4
def JMP : Nat := 5
def NITER : Nat := 6
def NNEXT : Nat := 7
def EITER : Nat := 8
def ENEXT : Nat := 9
def HASE : Nat := 10
def DEG : Nat := 11
def ADD : Nat := 12
def SUB : Nat := 13
def MUL : Nat := 14
def DIV : Nat := 15
def CMP : Nat := 16
def MOV : Nat := 17
def MOVC : Nat := 18
def LD : Nat := 19
def ST : Nat := 20
def FPUSH : Nat := 21
def FPOP : Nat := 22
def FEMPTY : Nat := 23
def FSWAP : Nat := 24
def FFILL : Nat := 25
def VADD : Nat := 26
def VSUB : Nat := 27
def VMUL : Nat := 28
def VDIV : Nat := 29
def VLD : Nat := 30
def VST : Nat := 31
def VSET : Nat := 32
def VSUM : Nat := 33
def PARALLEL : Nat := 34
def BARRIER : Nat := 35
def LOCK : Nat := 36
def UNLOCK : Nat := 37

/- Named integer register slots (enum in graphX.h). -/
def R_NODE : Nat := 0
def R_NBR : Nat := 1
def R_VAL : Nat := 2
def R_ACC : Nat := 3
def R_ZERO : Nat := 20
def R_CORE : Nat := 21
def R_COUNT : Nat := 22

/- Named float register slots. -/
def F_ACC : Nat := 0
def F_ZERO : Nat := 17
def F_COUNT : Nat := 18

/-- VM status (vm_status_t): VM_ERROR = -1, VM_HALT = 0, VM_CONTINUE = 1.
The pipeline compares a fetched 64-bit word against VM_HALT, i.e. against
the integer 0. -/
inductive vm_status_t where
  | VM_ERROR
  | VM_HALT
  | VM_CONTINUE
  deriving DecidableEq

export vm_status_t (VM_ERROR VM_HALT VM_CONTINUE)

/-- Abstracted IEEE-754 single-precision host operations on raw 32-bit
patterns.  The C core delegates float arithmetic to the host FPU; none of
the claims verified below depend on the values these produce, so they are
kept as an arbitrary parameter. feq0 and flt0 model the comparisons
x == 0.0f and x < 0.0f; itof is the C cast (float)int32; ftoi is the C
cast (int32_t)float. -/
structure FloatOps where
  fadd : Nat → Nat → Nat
  fsub : Nat → Nat → Nat
  fmul : Nat → Nat → Nat
  fdiv : Nat → Nat → Nat
  feq0 : Nat → Bool
  flt0 : Nat → Bool
  itof : ℤ → Nat
  ftoi : Nat → ℤ

/-- Dummy float instantiation used for concrete evaluations whose execution
paths never consult a float operation. -/
def fm0 : FloatOps :=
  { fadd := fun _ _ => 0, fsub := fun _ _ => 0, fmul := fun _ _ => 0,
    fdiv := fun _ _ => 0, feq0 := fun _ => false, flt0 := fun _ => false,
    itof := fun _ => 0, ftoi := fun _ => 0 }

/-- The VM state (graphX_vm_t).  Register files and memories are total
functions from indices; C indexes them with 8-bit decoded arguments and
behaviour outside the declared bounds is undefined in C.  The graph and
the two frontier references are modelled by value (the VM uniquely borrows
them; FSWAP swaps the two references).  debug_hook / exit_hook registration
is modelled as a boolean. -/
structure graphX_vm_t where
  PC : Nat
  ISA : Nat
  FLAGS : Nat
  A0 : ℤ
  A1 : ℤ
  A2 : ℤ
  FA : Nat
  R : Nat → ℤ
  F : Nat → Nat
  VR : Nat → Nat → Nat
  VF : Nat → Nat → Nat
  program : Nat → Nat
  memory : Nat → ℤ
  niter : Nat → Nat
  eiter : Nat
  graph : graph_t
  frontier : frontier_t
  next_frontier : frontier_t
  clock : Nat
  debug_hook : Bool
  exit_hook : Bool

/-- Pointwise update of a register file. -/
def upd {α : Type} (f : Nat → α) (i : Nat) (v : α) : Nat → α :=
  fun j => if j = i then v else f j

/-- Pointwise update of one lane of a vector register file. -/
def updV {α : Type} (f : Nat → Nat → α) (r : Nat) (g : Nat → α) : Nat → Nat → α :=
  fun r2 lane => if r2 = r then g lane else f r2 lane

/- ===================== graphX.c ======================================== -/

/-- The fetch function: returns VM_HALT (the 64-bit value 0) when
PC >= PROGRAM_SIZE, else the program word at PC, incrementing PC. -/
def fetch (vm : graphX_vm_t) : Nat × graphX_vm_t :=
  if PROGRAM_SIZE ≤ vm.PC then (0, vm)
  else (vm.program vm.PC, { vm with PC := vm.PC + 1 })

/-- Extract the byte (data >> sh) & 0xFF. -/
def byteAt (data sh : Nat) : Nat := (data / 2^sh) % 256

/-- The opcode switch at the end of decode: the C switch enumerates exactly
the opcodes HALT..UNLOCK, which occupy the contiguous values 0..37. -/
def validOpcode (isa : Nat) : Bool := decide (isa ≤ UNLOCK)

/-- The decode function.  Zeroes the argument slots, extracts opcode,
flags, arg1, arg2, then the third operand according to the flags byte:
0 / 2 give a register id from bits 31:24, 1 gives the signed 32-bit
immediate, 3 gives the float argument the raw low 32 bits (the memcpy).
Returns the (partially updated) VM together with some flags on success,
none on an invalid flags byte or unknown opcode (-1 in C). -/
def decode (vm : graphX_vm_t) (data : Nat) : graphX_vm_t × Option Nat :=
  let isa := byteAt data 56
  let flags := byteAt data 48
  let a0 : ℤ := byteAt data 40
  let a1 : ℤ := byteAt data 32
  if flags = 0 ∨ flags = 2 then
    ({ vm with ISA := isa, A0 := a0, A1 := a1, A2 := (byteAt data 24 : ℤ), FA := 0 },
     if validOpcode isa then some flags else none)
  else if flags = 1 then
    ({ vm with ISA := isa, A0 := a0, A1 := a1, A2 := zOfU32 (data % 2^32), FA := 0 },
     if validOpcode isa then some flags else none)
  else if flags = 3 then
    ({ vm with ISA := isa, A0 := a0, A1 := a1, A2 := 0, FA := data % 2^32 },
     if validOpcode isa then some flags else none)
  else
    ({ vm with ISA := isa, A0 := a0, A1 := a1, A2 := 0, FA := 0 }, none)

/-- The execute function, one branch per opcode of the C switch.  The
decoded arguments arg1 arg2 arg3 are read from the A registers; register
files are indexed through toNat (the arguments produced by decode are
byte-sized and nonnegative; other index values are undefined behaviour in
C). -/
def execute (fm : FloatOps) (flags : Nat) (vm : graphX_vm_t) : vm_status_t × graphX_vm_t :=
  let a1 : Nat := vm.A0.toNat
  let a2 : Nat := vm.A1.toNat
  let a3 : ℤ := vm.A2
  let farg : Nat := vm.FA
  let g := vm.graph
  match vm.ISA with
  | 0 => -- HALT
    (VM_HALT, vm)
  | 1 => -- BZ
    if (PROGRAM_SIZE : ℤ) ≤ a3 ∨ a3 < 0 then (VM_ERROR, vm)
    else if vm.FLAGS.testBit 0 then (VM_CONTINUE, { vm with PC := a3.toNat })
    else (VM_CONTINUE, vm)
  | 2 => -- BNZ
    if (PROGRAM_SIZE : ℤ) ≤ a3 ∨ a3 < 0 then (VM_ERROR, vm)
    else if ¬ vm.FLAGS.testBit 0 then (VM_CONTINUE, { vm with PC := a3.toNat })
    else (VM_CONTINUE, vm)
  | 3 => -- BLT
    if (PROGRAM_SIZE : ℤ) ≤ a3 ∨ a3 < 0 then (VM_ERROR, vm)
    else if vm.FLAGS.testBit 1 then (VM_CONTINUE, { vm with PC := a3.toNat })
    else (VM_CONTINUE, vm)
  | 4 => -- BGE
    if (PROGRAM_SIZE : ℤ) ≤ a3 ∨ a3 < 0 then (VM_ERROR, vm)
    else if vm.FLAGS.testBit 2 ∨ vm.FLAGS.testBit 0 then (VM_CONTINUE, { vm with PC := a3.toNat })
    else (VM_CONTINUE, vm)
  | 5 => -- JMP
    if (PROGRAM_SIZE : ℤ) ≤ a3 ∨ a3 < 0 then (VM_ERROR, vm)
    else (VM_CONTINUE, { vm with PC := a3.toNat })
  | 6 => -- NITER
    if (4 : ℤ) ≤ a3 ∨ a3 < 0 then (VM_ERROR, vm)
    else (VM_CONTINUE, { vm with niter := upd vm.niter a3.toNat 0 })
  | 7 => -- NNEXT
    if (4 : ℤ) ≤ a3 ∨ a3 < 0 then (VM_ERROR, vm)
    else
      let k := a3.toNat
      let u := u32ofZ (vm.R R_NODE)
      if g.row_index u + vm.niter k < g.row_index (u + 1) then
        (VM_CONTINUE,
         { vm with FLAGS := 0,
                   R := upd (upd vm.R R_NBR (zOfU32 (g.col_index (g.row_index u + vm.niter k))))
                            R_VAL (fm.ftoi (g.values (g.row_index u + vm.niter k))),
                   niter := upd vm.niter k ((vm.niter k + 1) % 2^32) })
      else (VM_CONTINUE, { vm with FLAGS := FLAG_ZERO })
  | 8 => -- EITER
    (VM_CONTINUE, { vm with eiter := 0, R := upd vm.R R_NODE 0 })
  | 9 => -- ENEXT
    -- end-of-row advance: Rnode < n (int vs unsigned comparison, done
    -- unsigned in C) and row_index[Rnode] + eiter >= row_index[Rnode+1]
    let u0 := u32ofZ (vm.R R_NODE)
    let advance := u0 < g.n ∧ g.row_index (u0 + 1) ≤ g.row_index u0 + vm.eiter
    let r1 : ℤ := if advance then wrap32 (vm.R R_NODE + 1) else vm.R R_NODE
    let e1 : Nat := if advance then 0 else vm.eiter
    let u1 := u32ofZ r1
    -- bounds check of the source: Rnode + eiter >= n in unsigned arithmetic
    if g.n ≤ (u1 + e1) % 2^32 then
      (VM_CONTINUE, { vm with FLAGS := FLAG_ZERO,
                              R := upd vm.R R_NODE r1, eiter := e1 })
    else
      (VM_CONTINUE,
       { vm with FLAGS := 0,
                 R := upd (upd (upd vm.R R_NODE r1)
                               R_NBR (zOfU32 (g.col_index (g.row_index u1 + e1))))
                          R_VAL (fm.ftoi (g.values (g.row_index u1 + e1))),
                 eiter := (e1 + 1) % 2^32 })
  | 10 => -- HASE: FLAGS = FLAG_ZERO, then FLAGS &= ~FLAG_ZERO when found
    (VM_CONTINUE,
     { vm with FLAGS := if graph_has_edge g (u32ofZ (vm.R R_NODE)) (u32ofZ (vm.R R_NBR))
                        then 0 else FLAG_ZERO })
  | 11 => -- DEG
    (VM_CONTINUE, { vm with R := upd vm.R R_VAL (zOfU32 (graph_degree g (u32ofZ (vm.R a1)))) })
  | 12 => -- ADD
    if flags.testBit 0 then
      if flags.testBit 1 then
        (VM_CONTINUE, { vm with F := upd vm.F a1 (fm.fadd (vm.F a2) farg) })
      else (VM_CONTINUE, { vm with R := upd vm.R a1 (wrap32 (vm.R a2 + a3)) })
    else
      if flags.testBit 1 then
        (VM_CONTINUE, { vm with F := upd vm.F a1 (fm.fadd (vm.F a2) (vm.F a3.toNat)) })
      else (VM_CONTINUE, { vm with R := upd vm.R a1 (wrap32 (vm.R a2 + vm.R a3.toNat)) })
  | 13 => -- SUB
    if flags.testBit 0 then
      if flags.testBit 1 then
        (VM_CONTINUE, { vm with F := upd vm.F a1 (fm.fsub (vm.F a2) farg) })
      else (VM_CONTINUE, { vm with R := upd vm.R a1 (wrap32 (vm.R a2 - a3)) })
    else
      if flags.testBit 1 then
        (VM_CONTINUE, { vm with F := upd vm.F a1 (fm.fsub (vm.F a2) (vm.F a3.toNat)) })
      else (VM_CONTINUE, { vm with R := upd vm.R a1 (wrap32 (vm.R a2 - vm.R a3.toNat)) })
  | 14 => -- MUL
    if flags.testBit 0 then
      if flags.testBit 1 then
        (VM_CONTINUE, { vm with F := upd vm.F a1 (fm.fmul (vm.F a2) farg) })
      else (VM_CONTINUE, { vm with R := upd vm.R a1 (wrap32 (vm.R a2 * a3)) })
    else
      if flags.testBit 1 then
        (VM_CONTINUE, { vm with F := upd vm.F a1 (fm.fmul (vm.F a2) (vm.F a3.toNat)) })
      else (VM_CONTINUE, { vm with R := upd vm.R a1 (wrap32 (vm.R a2 * vm.R a3.toNat)) })
  | 15 => -- DIV (C truncating int division; division by zero is UB in C)
    if flags.testBit 0 then
      if flags.testBit 1 then
        (VM_CONTINUE, { vm with F := upd vm.F a1 (fm.fdiv (vm.F a2) farg) })
      else (VM_CONTINUE, { vm with R := upd vm.R a1 (wrap32 (Int.tdiv (vm.R a2) a3)) })
    else
      if flags.testBit 1 then
        (VM_CONTINUE, { vm with F := upd vm.F a1 (fm.fdiv (vm.F a2) (vm.F a3.toNat)) })
      else (VM_CONTINUE, { vm with R := upd vm.R a1 (wrap32 (Int.tdiv (vm.R a2) (vm.R a3.toNat))) })
  | 16 => -- CMP: flags from R[arg1] - R[arg2] (or F[arg1] - F[arg2] when
          -- the flags word equals FLAG_F); the third operand is not read
    if flags = FLAG_F then
      let compf := fm.fsub (vm.F a1) (vm.F a2)
      (VM_CONTINUE,
       { vm with FLAGS := if fm.feq0 compf then FLAG_ZERO
                          else if fm.flt0 compf then FLAG_NEG else FLAG_POS })
    else
      let comp := wrap32 (vm.R a1 - vm.R a2)
      (VM_CONTINUE,
       { vm with FLAGS := if comp = 0 then FLAG_ZERO
                          else if comp < 0 then FLAG_NEG else FLAG_POS })
  | 17 => -- MOV
    if flags.testBit 0 then
      if flags.testBit 1 then (VM_CONTINUE, { vm with F := upd vm.F a1 farg })
      else (VM_CONTINUE, { vm with R := upd vm.R a1 a3 })
    else
      if flags.testBit 1 then (VM_CONTINUE, { vm with F := upd vm.F a1 (vm.F a2) })
      else (VM_CONTINUE, { vm with R := upd vm.R a1 (vm.R a2) })
  | 18 => -- MOVC
    if flags = FLAG_F then (VM_CONTINUE, { vm with F := upd vm.F a1 (fm.itof (vm.R a2)) })
    else (VM_CONTINUE, { vm with R := upd vm.R a1 (fm.ftoi (vm.F a2)) })
  | 19 => -- LD
    if flags.testBit 0 then
      if (MEMORY_SIZE : ℤ) ≤ a3 ∨ a3 < 0 then (VM_ERROR, vm)
      else if flags.testBit 1 then
        (VM_CONTINUE, { vm with F := upd vm.F a1 (u32ofZ (vm.memory a3.toNat)) })
      else (VM_CONTINUE, { vm with R := upd vm.R a1 (vm.memory a3.toNat) })
    else
      if (MEMORY_SIZE : ℤ) ≤ vm.R a2 ∨ vm.R a2 < 0 then (VM_ERROR, vm)
      else if flags.testBit 1 then
        (VM_CONTINUE, { vm with F := upd vm.F a1 (u32ofZ (vm.memory (vm.R a2).toNat)) })
      else (VM_CONTINUE, { vm with R := upd vm.R a1 (vm.memory (vm.R a2).toNat) })
  | 20 => -- ST
    if flags.testBit 0 then
      if (MEMORY_SIZE : ℤ) ≤ a3 ∨ a3 < 0 then (VM_ERROR, vm)
      else if flags.testBit 1 then
        (VM_CONTINUE, { vm with memory := upd vm.memory a3.toNat (zOfU32 (vm.F a1)) })
      else (VM_CONTINUE, { vm with memory := upd vm.memory a3.toNat (vm.R a1) })
    else
      if (MEMORY_SIZE : ℤ) ≤ vm.R a2 ∨ vm.R a2 < 0 then (VM_ERROR, vm)
      else if flags.testBit 1 then
        (VM_CONTINUE, { vm with memory := upd vm.memory (vm.R a2).toNat (zOfU32 (vm.F a1)) })
      else (VM_CONTINUE, { vm with memory := upd vm.memory (vm.R a2).toNat (vm.R a1) })
  | 21 => -- FPUSH: push R[arg1] to the next frontier; the status returned
          -- by frontier_push is discarded
    (VM_CONTINUE, { vm with next_frontier := (frontier_push vm.next_frontier (u32ofZ (vm.R a1))).2 })
  | 22 => -- FPOP: pop from the current frontier into R[arg1]; the status
          -- returned by frontier_pop is discarded and R[arg1] is written
          -- only on success
    match frontier_pop vm.frontier with
    | (some v, f2) => (VM_CONTINUE, { vm with frontier := f2, R := upd vm.R a1 (zOfU32 v) })
    | (none, f2) => (VM_CONTINUE, { vm with frontier := f2 })
  | 23 => -- FEMPTY
    if frontier_empty vm.frontier ≠ 0 then
      (VM_CONTINUE, { vm with FLAGS := vm.FLAGS ||| FLAG_ZERO })
    else (VM_CONTINUE, { vm with FLAGS := vm.FLAGS &&& 0xFFFFFFFE })
  | 24 => -- FSWAP: exchange the two frontier references
    (VM_CONTINUE, { vm with frontier := vm.next_frontier, next_frontier := vm.frontier })
  | 25 => -- FFILL: push nodes 0..n-1 onto the current frontier
    (VM_CONTINUE,
     { vm with frontier := (List.range g.n).foldl (fun f node => (frontier_push f node).2) vm.frontier })
  | 26 => -- VADD
    if flags.testBit 1 then
      (VM_CONTINUE, { vm with VF := updV vm.VF a1 (fun i => fm.fadd (vm.VF a2 i) (vm.VF a3.toNat i)) })
    else
      (VM_CONTINUE, { vm with VR := updV vm.VR a1 (fun i => u32add (vm.VR a2 i) (vm.VR a3.toNat i)) })
  | 27 => -- VSUB
    if flags.testBit 1 then
      (VM_CONTINUE, { vm with VF := updV vm.VF a1 (fun i => fm.fsub (vm.VF a2 i) (vm.VF a3.toNat i)) })
    else
      (VM_CONTINUE, { vm with VR := updV vm.VR a1 (fun i => u32sub (vm.VR a2 i) (vm.VR a3.toNat i)) })
  | 28 => -- VMUL
    if flags.testBit 1 then
      (VM_CONTINUE, { vm with VF := updV vm.VF a1 (fun i => fm.fmul (vm.VF a2 i) (vm.VF a3.toNat i)) })
    else
      (VM_CONTINUE, { vm with VR := updV vm.VR a1 (fun i => u32mul (vm.VR a2 i) (vm.VR a3.toNat i)) })
  | 29 => -- VDIV
    if flags.testBit 1 then
      (VM_CONTINUE, { vm with VF := updV vm.VF a1 (fun i => fm.fdiv (vm.VF a2 i) (vm.VF a3.toNat i)) })
    else
      (VM_CONTINUE, { vm with VR := updV vm.VR a1 (fun i => u32div (vm.VR a2 i) (vm.VR a3.toNat i)) })
  | 30 => -- VLD: bounds check base + LANE_SIZE >= MEMORY_SIZE fails
    if flags.testBit 0 then
      if (MEMORY_SIZE : ℤ) ≤ a3 + LANE_SIZE ∨ a3 < 0 then (VM_ERROR, vm)
      else if flags.testBit 1 then
        (VM_CONTINUE, { vm with VF := updV vm.VF a1 (fun i => if i < LANE_SIZE then u32ofZ (vm.memory (a3.toNat + i)) else vm.VF a1 i) })
      else
        (VM_CONTINUE, { vm with VR := updV vm.VR a1 (fun i => if i < LANE_SIZE then u32ofZ (vm.memory (a3.toNat + i)) else vm.VR a1 i) })
    else
      if (MEMORY_SIZE : ℤ) ≤ vm.R a2 + LANE_SIZE ∨ vm.R a2 < 0 then (VM_ERROR, vm)
      else if flags.testBit 1 then
        (VM_CONTINUE, { vm with VF := updV vm.VF a1 (fun i => if i < LANE_SIZE then u32ofZ (vm.memory ((vm.R a2).toNat + i)) else vm.VF a1 i) })
      else
        (VM_CONTINUE, { vm with VR := updV vm.VR a1 (fun i => if i < LANE_SIZE then u32ofZ (vm.memory ((vm.R a2).toNat + i)) else vm.VR a1 i) })
  | 31 => -- VST
    if flags.testBit 0 then
      if (MEMORY_SIZE : ℤ) ≤ a3 + LANE_SIZE ∨ a3 < 0 then (VM_ERROR, vm)
      else if flags.testBit 1 then
        (VM_CONTINUE, { vm with memory := fun i => if a3.toNat ≤ i ∧ i < a3.toNat + LANE_SIZE then zOfU32 (vm.VF a1 (i - a3.toNat)) else vm.memory i })
      else
        (VM_CONTINUE, { vm with memory := fun i => if a3.toNat ≤ i ∧ i < a3.toNat + LANE_SIZE then zOfU32 (vm.VR a1 (i - a3.toNat)) else vm.memory i })
    else
      if (MEMORY_SIZE : ℤ) ≤ vm.R a2 + LANE_SIZE ∨ vm.R a2 < 0 then (VM_ERROR, vm)
      else if flags.testBit 1 then
        (VM_CONTINUE, { vm with memory := fun i => if (vm.R a2).toNat ≤ i ∧ i < (vm.R a2).toNat + LANE_SIZE then zOfU32 (vm.VF a1 (i - (vm.R a2).toNat)) else vm.memory i })
      else
        (VM_CONTINUE, { vm with memory := fun i => if (vm.R a2).toNat ≤ i ∧ i < (vm.R a2).toNat + LANE_SIZE then zOfU32 (vm.VR a1 (i - (vm.R a2).toNat)) else vm.memory i })
  | 32 => -- VSET
    if flags.testBit 0 then
      if flags.testBit 1 then
        (VM_CONTINUE, { vm with VF := updV vm.VF a1 (fun i => if i < LANE_SIZE then farg else vm.VF a1 i) })
      else
        (VM_CONTINUE, { vm with VR := updV vm.VR a1 (fun i => if i < LANE_SIZE then u32ofZ a3 else vm.VR a1 i) })
    else
      if flags.testBit 1 then
        (VM_CONTINUE, { vm with VF := updV vm.VF a1 (fun i => if i < LANE_SIZE then vm.F a2 else vm.VF a1 i) })
      else
        (VM_CONTINUE, { vm with VR := updV vm.VR a1 (fun i => if i < LANE_SIZE then u32ofZ (vm.R a2) else vm.VR a1 i) })
  | 33 => -- VSUM: reduction by accumulation into the destination scalar
    if flags.testBit 1 then
      (VM_CONTINUE,
       { vm with F := upd vm.F a1 (fm.fadd (fm.fadd (fm.fadd (fm.fadd (vm.F a1) (vm.VF a2 0)) (vm.VF a2 1)) (vm.VF a2 2)) (vm.VF a2 3)) })
    else
      (VM_CONTINUE,
       { vm with R := upd vm.R a1 (wrap32 (wrap32 (wrap32 (wrap32 (vm.R a1 + vm.VR a2 0) + vm.VR a2 1) + vm.VR a2 2) + vm.VR a2 3)) })
  | 34 => (VM_CONTINUE, vm) -- PARALLEL: no-op on the VM
  | 35 => (VM_CONTINUE, vm) -- BARRIER: no-op on the VM
  | 36 => (VM_CONTINUE, vm) -- LOCK: no-op on the VM
  | 37 => (VM_CONTINUE, vm) -- UNLOCK: no-op on the VM
  | _ => (VM_ERROR, vm)

/-- Outcome of a terminating pipeline run: the final status, the final VM
state, the number of exit_hook invocations (0 or 1), the number of
debug_hook invocations, and whether termination came from the early
`return VM_ERROR` taken on decode failure. -/
structure RunOut where
  status : vm_status_t
  vm : graphX_vm_t
  exit_calls : Nat
  debug_calls : Nat
  decode_failed : Bool

/-- Number of exit_hook invocations performed right before run returns. -/
def exitCount (vm : graphX_vm_t) : Nat := if vm.exit_hook then 1 else 0

/-- The while loop of run, made total with a fuel argument (none = the
loop was still running after `fuel` iterations).  Per iteration: fetch;
a fetched word equal to VM_HALT (the value 0) halts before decode, the
debug hook, and the clock increment; decode failure returns VM_ERROR
immediately, skipping the exit hook; otherwise execute, invoke the debug
hook if registered, increment clock, and loop while the status is
VM_CONTINUE.  After the loop the exit hook is invoked if registered. -/
def runX (fm : FloatOps) : Nat → graphX_vm_t → Nat → Option RunOut
  | 0, _, _ => none
  | fuel + 1, s, dbg =>
    let fr := fetch s
    if fr.1 = 0 then
      some { status := VM_HALT, vm := fr.2, exit_calls := exitCount fr.2,
             debug_calls := dbg, decode_failed := false }
    else
      match decode fr.2 fr.1 with
      | (s2, none) =>
        some { status := VM_ERROR, vm := s2, exit_calls := 0,
               debug_calls := dbg, decode_failed := true }
      | (s2, some flags) =>
        let er := execute fm flags s2
        let dbg2 := dbg + (if er.2.debug_hook then 1 else 0)
        let s4 := { er.2 with clock := er.2.clock + 1 }
        match er.1 with
        | VM_CONTINUE => runX fm fuel s4 dbg2
        | st =>
          some { status := st, vm := s4, exit_calls := exitCount s4,
                 debug_calls := dbg2, decode_failed := false }

/-- The run function (with fuel). -/
def run (fm : FloatOps) (fuel : Nat) (s : graphX_vm_t) : Option RunOut :=
  runX fm fuel s 0

/-- The graphX_reset function: zero PC, FLAGS, the instruction register
(set to HALT), the three integer argument registers, all register files,
the iteration cursors, memory and clock, and re-initialise both frontier
backends as FRONTIER_QUEUE.  The float argument register FA, the program,
the graph reference and the hooks are not touched by the C code. -/
def graphX_reset (vm : graphX_vm_t) : graphX_vm_t :=
  { vm with
    PC := 0, FLAGS := 0, ISA := HALT, A0 := 0, A1 := 0, A2 := 0,
    R := fun _ => 0, F := fun _ => 0, VR := fun _ _ => 0, VF := fun _ _ => 0,
    niter := fun _ => 0, eiter := 0, memory := fun _ => 0,
    frontier := (frontier_init vm.frontier FRONTIER_QUEUE).2,
    next_frontier := (frontier_init vm.next_frontier FRONTIER_QUEUE).2,
    clock := 0 }

/- ===================== concrete fixtures =============================== -/

/-- Build the 64-bit instruction word op:8 flags:8 arg1:8 arg2:8 third:32. -/
def instrWord (op flags a1 a2 imm : Nat) : Nat :=
  op * 2^56 + flags * 2^48 + a1 * 2^40 + a2 * 2^32 + imm

/-- A fresh VM over a given graph and program image, in the state produced
by loading: everything zero, both frontiers empty FIFO queues, no hooks. -/
def mkVM (g : graph_t) (prog : List Nat) : graphX_vm_t :=
  { PC := 0, ISA := HALT, FLAGS := 0, A0 := 0, A1 := 0, A2 := 0, FA := 0,
    R := fun _ => 0, F := fun _ => 0, VR := fun _ _ => 0, VF := fun _ _ => 0,
    program := fun i => prog.getD i 0, memory := fun _ => 0,
    niter := fun _ => 0, eiter := 0, graph := g,
    frontier := { type := FRONTIER_QUEUE, queue := { data := fun _ => 0, front := 0, back := 0 } },
    next_frontier := { type := FRONTIER_QUEUE, queue := { data := fun _ => 0, front := 0, back := 0 } },
    clock := 0, debug_hook := false, exit_hook := false }

/-- The empty graph (no nodes, no edges). -/
def g0 : graph_t :=
  { m := 0, n := 0, col_index := fun _ => 0, row_index := fun _ => 0, values := fun _ => 0 }

/- ===================== helper lemmas =================================== -/

theorem fetch_exit_hook (s : graphX_vm_t) : (fetch s).2.exit_hook = s.exit_hook := by
  unfold fetch
  split <;> rfl

theorem decode_exit_hook (s : graphX_vm_t) (d : Nat) :
    (decode s d).1.exit_hook = s.exit_hook := by
  unfold decode
  dsimp only
  repeat' split
  all_goals rfl

theorem execute_exit_hook (fm : FloatOps) (f : Nat) (s : graphX_vm_t) :
    (execute fm f s).2.exit_hook = s.exit_hook := by
  unfold execute
  dsimp only
  repeat' split
  all_goals rfl

theorem graphX_reset_reset (s : graphX_vm_t) :
    graphX_reset (graphX_reset s) = graphX_reset s := rfl

/- ===================== claim C1 ======================================== -/

def vmC1 : graphX_vm_t := mkVM g0 [instrWord FPOP 0 R_ACC 0 0]

/-- Claim C1 counterexample: a run whose first instruction is an FPOP on an
empty current frontier does not terminate with Error at that instruction;
the failed pop is silently discarded, the pipeline continues (clock
reaches 1) and the run ends with the natural Halt on the next (zero)
program word. -/
theorem fpop_empty_frontier_no_error :
    (run fm0 10 vmC1).map (fun o => (o.status, o.vm.clock, o.vm.frontier.queue.back)) =
      some (VM_HALT, 1, 0) := rfl

/-- Claim C1 amended: an FPOP executed while the current frontier is empty,
or an FPUSH executed while the next frontier holds MAX_QUEUE_SIZE = 1024
nodes, does not stop the pipeline: the frontier operation fails internally
(its -1 status is discarded by execute), the frontier and, for FPOP, the
destination register are left unchanged, and execute returns VM_CONTINUE
with the state exactly as it was. -/
theorem frontier_fault_is_silent (fm : FloatOps) (flags : Nat) (s : graphX_vm_t) :
    (s.ISA = FPOP → s.frontier.type = FRONTIER_QUEUE →
      s.frontier.queue.front = s.frontier.queue.back →
      execute fm flags s = (VM_CONTINUE, s)) ∧
    (s.ISA = FPUSH → s.next_frontier.type = FRONTIER_QUEUE →
      s.next_frontier.queue.front - s.next_frontier.queue.back = MAX_QUEUE_SIZE →
      execute fm flags s = (VM_CONTINUE, s)) := by
  obtain ⟨sPC, sISA, sFLAGS, sA0, sA1, sA2, sFA, sR, sF, sVR, sVF, sprog, smem,
          sniter, seiter, sgraph, sfront, snext, sclock, sdbg, sexit⟩ := s
  obtain ⟨ftype, fqueue⟩ := sfront
  obtain ⟨ntype, nqueue⟩ := snext
  constructor
  · intro h1 h2 h3
    dsimp only at h1 h2 h3
    subst h1
    subst h2
    simp [execute, FPOP, frontier_pop, queue_pop, h3]
  · intro h1 h2 h3
    dsimp only at h1 h2 h3
    subst h1
    subst h2
    simp [execute, FPUSH, frontier_push, queue_push, h3, MAX_QUEUE_SIZE]

def vmC1w : graphX_vm_t := { mkVM g0 [] with ISA := FPOP }

/-- Witness for the amended claim C1, at a concrete VM about to execute
FPOP on an empty frontier. -/
theorem frontier_fault_is_silent_w :
    vmC1w.ISA = FPOP ∧ vmC1w.frontier.type = FRONTIER_QUEUE ∧
    vmC1w.frontier.queue.front = vmC1w.frontier.queue.back ∧
    execute fm0 0 vmC1w = (VM_CONTINUE, vmC1w) :=
  ⟨rfl, rfl, rfl, (frontier_fault_is_silent fm0 0 vmC1w).1 rfl rfl rfl⟩

/- ===================== claim C2 ======================================== -/

def vmC2 : graphX_vm_t := mkVM g0 [instrWord MOV 1 R_ZERO 0 5]

/-- Claim C2 counterexample: from the loaded (all-zero) state, executing
the single instruction MOV R_ZERO, 5 leaves R_ZERO holding 5 in the final
(reachable) state — the zero registers are not hard-wired and writes to
them are not discarded. -/
theorem mov_to_rzero_persists :
    (run fm0 10 vmC2).map (fun o => (o.status, o.vm.R R_ZERO)) = some (VM_HALT, 5) := rfl

/-- Claim C2 amended: R_ZERO, F_ZERO and R_CORE hold zero after
graphX_reset, but they are ordinary writable slots, not hard-wired: an
instruction whose destination is one of them (here MOV R_ZERO, z) stores
its result there like any other register, and the stored value is what is
read back afterwards. -/
theorem zero_registers_reset_to_zero_but_writable :
    ∀ (s : graphX_vm_t) (fm : FloatOps) (z : ℤ),
      (graphX_reset s).R R_ZERO = 0 ∧ (graphX_reset s).F F_ZERO = 0 ∧
      (graphX_reset s).R R_CORE = 0 ∧
      (execute fm 1 { graphX_reset s with ISA := MOV, A0 := ((R_ZERO : Nat) : ℤ), A2 := z }).2.R R_ZERO = z :=
  fun _ _ _ => ⟨rfl, rfl, rfl, rfl⟩

/- ===================== claim C3 ======================================== -/

/-- Failing input for claim C3: two nodes, node 0 with no neighbours and
node 1 with the two neighbours 0 and 1, so the edges are (1,0) and (1,1). -/
def gC3 : graph_t :=
  { m := 2, n := 2, col_index := fun i => [0, 1].getD i 0,
    row_index := fun i => [0, 0, 2].getD i 0, values := fun _ => 0 }

def vmC3 : graphX_vm_t :=
  mkVM gC3 [instrWord EITER 0 0 0 0, instrWord ENEXT 0 0 0 0, instrWord ENEXT 0 0 0 0]

/-- Claim C3 at the failing input: after EITER the first ENEXT yields the
edge (1,0), but the second ENEXT already reports end-of-scan (FLAGS.Z set,
R_NBR still 0 from the first edge) although the graph has m = 2 edges and
the edge (1, col_index 1) = (1,1) was never yielded: the end-of-scan test
of the source compares R_NODE + eiter (= 1 + 1) against n instead of
comparing R_NODE against n. -/
theorem enext_terminates_scan_early :
    (run fm0 10 vmC3).map (fun o => (o.status, o.vm.FLAGS, o.vm.R R_NBR, o.vm.R R_NODE)) =
      some (VM_HALT, FLAG_ZERO, 0, 1) ∧ gC3.m = 2 ∧ gC3.col_index 1 = 1 :=
  ⟨rfl, rfl, rfl⟩

/- ===================== claim C4 ======================================== -/

def gC4 : graph_t :=
  { m := 0, n := 1, col_index := fun _ => 0, row_index := fun _ => 0, values := fun _ => 0 }

def vmC4 : graphX_vm_t := mkVM gC4 [instrWord FFILL 0 0 0 0, instrWord FSWAP 0 0 0 0]

/-- Claim C4 counterexample: FFILL pushes node 0 onto the current frontier,
and the following FSWAP makes that one-element frontier the new
next_frontier: after FSWAP the new next_frontier has size 1, not 0 — FSWAP
performs no reset. -/
theorem fswap_leaves_next_frontier_nonempty :
    (run fm0 10 vmC4).map
        (fun o => (o.status, o.vm.next_frontier.queue.front - o.vm.next_frontier.queue.back)) =
      some (VM_HALT, 1) := rfl

/-- Claim C4 amended: FSWAP exchanges the two frontier references and
nothing else: the new current frontier is verbatim the old next_frontier
(the level just built), and the new next_frontier is verbatim the old
current frontier, retaining whatever contents the old current frontier
still had (it is not reset to empty). -/
theorem fswap_swaps_references (fm : FloatOps) (flags : Nat) (s : graphX_vm_t)
    (hISA : s.ISA = FSWAP) :
    execute fm flags s =
      (VM_CONTINUE, { s with frontier := s.next_frontier, next_frontier := s.frontier }) := by
  simp [execute, FSWAP, hISA]

def vmC4w : graphX_vm_t := { mkVM g0 [] with ISA := FSWAP }

/-- Witness for the amended claim C4. -/
theorem fswap_swaps_references_w :
    vmC4w.ISA = FSWAP ∧
    execute fm0 0 vmC4w =
      (VM_CONTINUE, { vmC4w with frontier := vmC4w.next_frontier, next_frontier := vmC4w.frontier }) :=
  ⟨rfl, fswap_swaps_references fm0 0 vmC4w rfl⟩

/- ===================== claim C5 ======================================== -/

def vmC5 : graphX_vm_t :=
  { mkVM g0 [] with ISA := CMP, A0 := 3, A1 := 4, A2 := 7,
                    R := fun i => if i = 3 then 5 else 0 }

/-- Claim C5 counterexample: an I-type integer CMP with R[arg2] = 0 and
immediate 7 should, per the claim (flags from src - third = 0 - 7 < 0),
set N; the code instead computes R[arg1] - R[arg2] = 5 - 0 > 0 and sets P,
ignoring the immediate entirely. -/
theorem cmp_ignores_third_operand :
    vmC5.R (vmC5.A1.toNat) = 0 ∧ vmC5.A2 = 7 ∧
    (execute fm0 1 vmC5).2.FLAGS = FLAG_POS ∧ FLAG_POS ≠ FLAG_NEG :=
  ⟨rfl, rfl, rfl, by decide⟩

/-- Claim C5 amended: an integer CMP (any flags word other than FLAG_F,
including both the R-type and the I-type form) derives the flags from
R[arg1] - R[arg2] — destination minus source, with the third operand never
read: Z iff the wrapped 32-bit difference is zero, N iff it is negative,
P iff it is positive, and exactly one of the three is set. -/
theorem cmp_flags_from_dst_minus_src (fm : FloatOps) (flags : Nat) (s : graphX_vm_t)
    (hISA : s.ISA = CMP) (hfl : flags ≠ FLAG_F) :
    execute fm flags s = (VM_CONTINUE,
      { s with FLAGS :=
          if wrap32 (s.R s.A0.toNat - s.R s.A1.toNat) = 0 then FLAG_ZERO
          else if wrap32 (s.R s.A0.toNat - s.R s.A1.toNat) < 0 then FLAG_NEG else FLAG_POS }) ∧
    ((execute fm flags s).2.FLAGS = FLAG_ZERO ∨ (execute fm flags s).2.FLAGS = FLAG_NEG ∨
      (execute fm flags s).2.FLAGS = FLAG_POS) := by
  have h1 : execute fm flags s = (VM_CONTINUE,
      { s with FLAGS :=
          if wrap32 (s.R s.A0.toNat - s.R s.A1.toNat) = 0 then FLAG_ZERO
          else if wrap32 (s.R s.A0.toNat - s.R s.A1.toNat) < 0 then FLAG_NEG else FLAG_POS }) := by
    have hfl2 : flags ≠ 2 := hfl
    simp [execute, CMP, FLAG_F, hISA, hfl2]
  refine ⟨h1, ?_⟩
  rw [h1]
  dsimp only
  split
  · exact Or.inl rfl
  · split
    · exact Or.inr (Or.inl rfl)
    · exact Or.inr (Or.inr rfl)

/-- Witness for the amended claim C5. -/
theorem cmp_flags_from_dst_minus_src_w :
    vmC5.ISA = CMP ∧ (1 : Nat) ≠ FLAG_F ∧
    (execute fm0 1 vmC5 = (VM_CONTINUE,
      { vmC5 with FLAGS :=
          if wrap32 (vmC5.R vmC5.A0.toNat - vmC5.R vmC5.A1.toNat) = 0 then FLAG_ZERO
          else if wrap32 (vmC5.R vmC5.A0.toNat - vmC5.R vmC5.A1.toNat) < 0 then FLAG_NEG else FLAG_POS }) ∧
     ((execute fm0 1 vmC5).2.FLAGS = FLAG_ZERO ∨ (execute fm0 1 vmC5).2.FLAGS = FLAG_NEG ∨
       (execute fm0 1 vmC5).2.FLAGS = FLAG_POS)) :=
  ⟨rfl, by decide, cmp_flags_from_dst_minus_src fm0 1 vmC5 rfl (by decide)⟩

/- ===================== claim C7 ======================================== -/

def vmC7 : graphX_vm_t := { mkVM g0 [] with ISA := VLD, A2 := 65532 }

/-- Claim C7 counterexample: an I-type VLD with base address 65532
(65532 + 4 = 65536 = MEM_SIZE, in bounds per the claim) faults with
VM_ERROR: the code rejects base + LANE_SIZE >= MEMORY_SIZE, an off-by-one
against the claimed base + 4 <= MEM_SIZE. -/
theorem vld_at_65532_errors :
    vmC7.A2 = 65532 ∧ (execute fm0 1 vmC7).1 = VM_ERROR :=
  ⟨rfl, rfl⟩

/-- Claim C7 amended: an integer VLD or VST succeeds iff the base address a
satisfies 0 <= a and a + 4 < MEM_SIZE (equivalently a <= 65531), in both
the immediate and the register-held addressing form; otherwise it faults
with VM_ERROR.  On success the I-type VLD moves exactly the 4 contiguous
words memory[a..a+3] into the vector register.  The last in-bounds base is
65531; a = 65532 faults even though the access would fit. -/
theorem vld_vst_bounds_off_by_one (fm : FloatOps) (s : graphX_vm_t) :
    ((s.ISA = VLD ∨ s.ISA = VST) →
      ((execute fm 1 s).1 = VM_ERROR ↔ ((MEMORY_SIZE : ℤ) ≤ s.A2 + LANE_SIZE ∨ s.A2 < 0))) ∧
    ((s.ISA = VLD ∨ s.ISA = VST) →
      ((execute fm 0 s).1 = VM_ERROR ↔
        ((MEMORY_SIZE : ℤ) ≤ s.R s.A1.toNat + LANE_SIZE ∨ s.R s.A1.toNat < 0))) ∧
    (s.ISA = VLD → ¬ ((MEMORY_SIZE : ℤ) ≤ s.A2 + LANE_SIZE ∨ s.A2 < 0) →
      ∀ i, i < LANE_SIZE → (execute fm 1 s).2.VR s.A0.toNat i = u32ofZ (s.memory (s.A2.toNat + i))) := by
  refine ⟨?_, ?_, ?_⟩
  · rintro (h | h) <;>
      · by_cases hb : (MEMORY_SIZE : ℤ) ≤ s.A2 + LANE_SIZE ∨ s.A2 < 0 <;>
          simp [execute, VLD, VST, h, hb, show Nat.testBit 1 1 = false from rfl,
                show Nat.testBit 1 0 = true from rfl, show Nat.testBit 0 0 = false from rfl,
                show Nat.testBit 0 1 = false from rfl]
  · rintro (h | h) <;>
      · by_cases hb : (MEMORY_SIZE : ℤ) ≤ s.R s.A1.toNat + LANE_SIZE ∨ s.R s.A1.toNat < 0 <;>
          simp [execute, VLD, VST, h, hb, show Nat.testBit 1 1 = false from rfl,
                show Nat.testBit 1 0 = true from rfl, show Nat.testBit 0 0 = false from rfl,
                show Nat.testBit 0 1 = false from rfl]
  · intro h hb i hi
    simp [execute, VLD, h, hb, updV, hi, show Nat.testBit 1 1 = false from rfl,
          show Nat.testBit 1 0 = true from rfl]

def vmC7w : graphX_vm_t :=
  { mkVM g0 [] with ISA := VLD, A2 := 65531, memory := fun i => if i = 65531 then 9 else 0 }

/-- Witness for the amended claim C7, at the largest in-bounds base 65531. -/
theorem vld_vst_bounds_off_by_one_w :
    (vmC7w.ISA = VLD ∨ vmC7w.ISA = VST) ∧
    ¬ ((MEMORY_SIZE : ℤ) ≤ vmC7w.A2 + LANE_SIZE ∨ vmC7w.A2 < 0) ∧
    ((execute fm0 1 vmC7w).1 = VM_ERROR ↔
      ((MEMORY_SIZE : ℤ) ≤ vmC7w.A2 + LANE_SIZE ∨ vmC7w.A2 < 0)) ∧
    (execute fm0 1 vmC7w).2.VR vmC7w.A0.toNat 0 = u32ofZ (vmC7w.memory (vmC7w.A2.toNat + 0)) :=
  ⟨Or.inl rfl, by decide,
   (vld_vst_bounds_off_by_one fm0 vmC7w).1 (Or.inl rfl),
   (vld_vst_bounds_off_by_one fm0 vmC7w).2.2 rfl (by decide) 0 (by decide)⟩

/- ===================== claim C9 ======================================== -/

/-- Claim C9: graphX_reset is idempotent — applying it k >= 1 times yields
the state of applying it once (all fields it writes are written to
constants or to values, like the re-initialised frontier queues, that do
not depend on the pre-reset state; the fields it does not write, such as
FA, the program image and the graph reference, pass through unchanged). -/
theorem graphX_reset_idempotent :
    ∀ (s : graphX_vm_t) (k : Nat), 1 ≤ k →
      Nat.iterate graphX_reset k s = graphX_reset s := by
  intro s k hk
  induction k with
  | zero => omega
  | succ n ih =>
    cases Nat.eq_zero_or_pos n with
    | inl h0 => subst h0; rfl
    | inr hpos =>
      rw [Function.iterate_succ_apply', ih hpos]
      exact graphX_reset_reset s

/-- Witness for claim C9: three resets of a concrete VM equal one reset. -/
theorem graphX_reset_idempotent_w :
    1 ≤ 3 ∧ Nat.iterate graphX_reset 3 (mkVM g0 []) = graphX_reset (mkVM g0 []) :=
  ⟨by decide, graphX_reset_idempotent (mkVM g0 []) 3 (by decide)⟩

/- ===================== claim C8 ======================================== -/

/-- Claim C8: when the neighbour slice of the current node is sorted
ascending, executing HASE continues the pipeline and leaves FLAGS.Z set iff
no k in [row_index u, row_index (u+1)) has col_index k = v (the edge
(R_NODE, R_NBR) is absent), and therefore cleared iff the edge exists; this
is the correctness of the binary search in graph_has_edge. -/
theorem hase_zero_flag_iff_no_edge (fm : FloatOps) (flags : Nat) (s : graphX_vm_t)
    (hISA : s.ISA = HASE)
    (hsort : sortedRange s.graph.col_index
        (s.graph.row_index (u32ofZ (s.R R_NODE)))
        (s.graph.row_index (u32ofZ (s.R R_NODE) + 1)) = true) :
    (execute fm flags s).1 = VM_CONTINUE ∧
    ((execute fm flags s).2.FLAGS.testBit 0 = true ↔
      ¬ ∃ k : Nat, s.graph.row_index (u32ofZ (s.R R_NODE)) ≤ k ∧
        k < s.graph.row_index (u32ofZ (s.R R_NODE) + 1) ∧
        s.graph.col_index k = u32ofZ (s.R R_NBR)) := by
  have hiff := graph_has_edge_iff s.graph (u32ofZ (s.R R_NODE)) (u32ofZ (s.R R_NBR)) hsort
  constructor
  · simp [execute, HASE, hISA]
  · cases hedge : graph_has_edge s.graph (u32ofZ (s.R R_NODE)) (u32ofZ (s.R R_NBR)) with
    | true =>
      have hex := hiff.mp hedge
      simp [execute, HASE, hISA, hedge]
      exact hex
    | false =>
      have hnex : ¬ ∃ k : Nat, s.graph.row_index (u32ofZ (s.R R_NODE)) ≤ k ∧
          k < s.graph.row_index (u32ofZ (s.R R_NODE) + 1) ∧
          s.graph.col_index k = u32ofZ (s.R R_NBR) := by
        intro hex
        rw [hiff.mpr hex] at hedge
        exact absurd hedge (by decide)
      simp [execute, HASE, hISA, hedge, FLAG_ZERO,
            show Nat.testBit 1 0 = true from rfl]
      intro k h1 h2
      exact fun h3 => hnex ⟨k, h1, h2, h3⟩

/-- Fixture for the claim C8 witness: node 0 has the sorted neighbour
slice [3, 5]; the VM is about to execute HASE with R_NODE = 0, R_NBR = 5. -/
def gC8 : graph_t :=
  { m := 2, n := 2, col_index := fun i => [3, 5].getD i 0,
    row_index := fun i => [0, 2, 2].getD i 0, values := fun _ => 0 }

def vmC8 : graphX_vm_t :=
  { mkVM gC8 [] with ISA := HASE, R := fun i => if i = 1 then 5 else 0 }

/-- Witness for claim C8: at the fixture the iff is established by the
theorem (the edge (0,5) exists, so FLAGS.Z ends up clear). -/
theorem hase_zero_flag_iff_no_edge_w :
    vmC8.ISA = HASE ∧
    sortedRange vmC8.graph.col_index
      (vmC8.graph.row_index (u32ofZ (vmC8.R R_NODE)))
      (vmC8.graph.row_index (u32ofZ (vmC8.R R_NODE) + 1)) = true ∧
    ((execute fm0 0 vmC8).1 = VM_CONTINUE ∧
     ((execute fm0 0 vmC8).2.FLAGS.testBit 0 = true ↔
       ¬ ∃ k : Nat, vmC8.graph.row_index (u32ofZ (vmC8.R R_NODE)) ≤ k ∧
         k < vmC8.graph.row_index (u32ofZ (vmC8.R R_NODE) + 1) ∧
         vmC8.graph.col_index k = u32ofZ (vmC8.R R_NBR))) :=
  ⟨rfl, by decide, hase_zero_flag_iff_no_edge fm0 0 vmC8 rfl (by decide)⟩

/- ===================== claim C6 ======================================== -/

def vmC6 : graphX_vm_t := { mkVM g0 [instrWord 255 0 0 0 0] with exit_hook := true }

/-- Claim C6 counterexample: a run that terminates through a decode
failure (opcode 0xFF is not in the ISA) returns Error without ever
invoking the registered exit_hook — the C code takes an early
`return VM_ERROR` that bypasses the hook call after the loop. -/
theorem decode_failure_skips_exit_hook :
    vmC6.exit_hook = true ∧
    (run fm0 10 vmC6).map (fun o => (o.status, o.exit_calls)) = some (VM_ERROR, 0) :=
  ⟨rfl, rfl⟩

/-- Claim C6 amended: on a VM with a registered exit_hook, every
terminating run invokes the exit_hook exactly once with the final status —
except when termination comes from a decode failure, in which case run
returns Error immediately and the exit_hook is invoked zero times. -/
theorem exit_hook_once_except_decode_failure (fm : FloatOps) :
    ∀ (fuel : Nat) (s : graphX_vm_t) (dbg : Nat) (o : RunOut),
      runX fm fuel s dbg = some o → s.exit_hook = true →
      o.exit_calls = if o.decode_failed then 0 else 1 := by
  intro fuel
  induction fuel with
  | zero =>
    intro s dbg o hrun
    simp [runX] at hrun
  | succ n ih =>
    intro s dbg o hrun hhook
    simp only [runX] at hrun
    by_cases h0 : (fetch s).1 = 0
    · rw [if_pos h0] at hrun
      injection hrun with h
      subst h
      simp [exitCount, fetch_exit_hook s, hhook]
    · rw [if_neg h0] at hrun
      rcases hdec : decode (fetch s).2 (fetch s).1 with ⟨s2, fl⟩
      rw [hdec] at hrun
      have hs2 : s2.exit_hook = true := by
        have hd := decode_exit_hook (fetch s).2 (fetch s).1
        rw [hdec] at hd
        rw [hd, fetch_exit_hook s, hhook]
      cases fl with
      | none =>
        dsimp only at hrun
        injection hrun with h
        subst h
        simp
      | some flags =>
        dsimp only at hrun
        rcases hex : execute fm flags s2 with ⟨st, s3⟩
        rw [hex] at hrun
        have hs3 : s3.exit_hook = true := by
          have he := execute_exit_hook fm flags s2
          rw [hex] at he
          rw [he, hs2]
        cases st with
        | VM_CONTINUE =>
          dsimp only at hrun
          exact ih _ _ _ hrun hs3
        | VM_HALT =>
          dsimp only at hrun
          injection hrun with h
          subst h
          simp [exitCount, hs3]
        | VM_ERROR =>
          dsimp only at hrun
          injection hrun with h
          subst h
          simp [exitCount, hs3]

def vmC6w : graphX_vm_t := { mkVM g0 [] with exit_hook := true }

def oC6w : RunOut :=
  { status := VM_HALT, vm := { vmC6w with PC := 1 }, exit_calls := 1,
    debug_calls := 0, decode_failed := false }

/-- Witness for the amended claim C6: a one-step halting run on a VM with
the exit_hook registered invokes it exactly once. -/
theorem exit_hook_once_except_decode_failure_w :
    runX fm0 1 vmC6w 0 = some oC6w ∧ vmC6w.exit_hook = true ∧
    oC6w.exit_calls = if oC6w.decode_failed then 0 else 1 :=
  ⟨rfl, rfl, exit_hook_once_except_decode_failure fm0 1 vmC6w 0 oC6w rfl rfl⟩

/- ===================== claim C10 ======================================= -/

def vmC10 : graphX_vm_t := mkVM g0 [instrWord HALT 4 0 0 0]

/-- Claim C10 counterexample: a nonzero word whose opcode byte is HALT but
whose flags byte is 4 (nonzero flag bits) is not executed normally ending
in Halt: decode rejects the flags byte and the run terminates with Error. -/
theorem halt_opcode_invalid_flags_errors :
    byteAt (vmC10.program 0) 56 = HALT ∧ byteAt (vmC10.program 0) 48 = 4 ∧
    vmC10.program 0 ≠ 0 ∧
    (run fm0 10 vmC10).map (fun o => o.status) = some VM_ERROR :=
  ⟨rfl, rfl, by decide, rfl⟩

/-- Claim C10 amended: a fetch that yields the 64-bit word 0 — the word at
PC when PC < PROGRAM_SIZE, or the sentinel returned for PC >= PROGRAM_SIZE
— makes run stop at once with Halt, without decoding, without a debug_hook
invocation for it and without incrementing clock; a nonzero word whose
opcode byte is HALT is decoded and executed normally (clock incremented,
debug_hook invoked if registered, final status Halt) provided its flags
byte is a valid type flag (0..3) — with an invalid flags byte (>= 4) the
run instead fails at decode. -/
theorem zero_word_halts_and_halt_word_counts (fm : FloatOps) (fuel dbg : Nat)
    (s : graphX_vm_t) :
    (s.PC < PROGRAM_SIZE → s.program s.PC = 0 →
      (runX fm (fuel + 1) s dbg).map (fun o => (o.status, o.vm.clock, o.debug_calls, o.decode_failed)) =
        some (VM_HALT, s.clock, dbg, false)) ∧
    (PROGRAM_SIZE ≤ s.PC →
      (runX fm (fuel + 1) s dbg).map (fun o => (o.status, o.vm.clock, o.debug_calls, o.decode_failed)) =
        some (VM_HALT, s.clock, dbg, false)) ∧
    (∀ w : Nat, s.program s.PC = w → w ≠ 0 → s.PC < PROGRAM_SIZE →
      byteAt w 56 = HALT → byteAt w 48 ≤ 3 →
      (runX fm (fuel + 1) s dbg).map (fun o => (o.status, o.vm.clock, o.debug_calls)) =
        some (VM_HALT, s.clock + 1, dbg + (if s.debug_hook then 1 else 0))) := by
  refine ⟨?_, ?_, ?_⟩
  · intro hpc hw
    have hne : ¬ (PROGRAM_SIZE ≤ s.PC) := by omega
    simp [runX, fetch, hne, hw]
  · intro hpc
    simp [runX, fetch, hpc]
  · intro w hw hw0 hpc hop hfl
    have hne : ¬ (PROGRAM_SIZE ≤ s.PC) := by omega
    have h4 : byteAt w 48 = 0 ∨ byteAt w 48 = 1 ∨ byteAt w 48 = 2 ∨ byteAt w 48 = 3 := by omega
    rcases h4 with hf | hf | hf | hf <;>
      simp [runX, fetch, hne, hw, hw0, decode, hf, hop, validOpcode, execute, HALT, UNLOCK]

def vmC10w : graphX_vm_t := mkVM g0 [instrWord HALT 1 0 0 7]

/-- Witness for the amended claim C10: the word with opcode HALT, flags
byte 1 and immediate 7 is nonzero, decodes, and ends the run with Halt
after incrementing clock. -/
theorem zero_word_halts_and_halt_word_counts_w :
    vmC10w.PC < PROGRAM_SIZE ∧ vmC10w.program vmC10w.PC ≠ 0 ∧
    byteAt (vmC10w.program vmC10w.PC) 56 = HALT ∧
    byteAt (vmC10w.program vmC10w.PC) 48 ≤ 3 ∧
    (runX fm0 (0 + 1) vmC10w 0).map (fun o => (o.status, o.vm.clock, o.debug_calls)) =
      some (VM_HALT, vmC10w.clock + 1, 0 + (if vmC10w.debug_hook then 1 else 0)) :=
  ⟨by decide, by decide, by decide, by decide,
   (zero_word_halts_and_halt_word_counts fm0 0 0 vmC10w).2.2 (instrWord HALT 1 0 0 7)
     rfl (by decide) (by decide) (by decide) (by decide)⟩

end GraphX
